import Mathlib

/-!
Verification of the EV3SP multi-robot orchestration layer.

Shallow embedding of the host-side control code:
* the Spike Prime BLE slot protocol (`sp_interface.py`, `sp_fast.py`):
  chunked program upload with a carry-forward CRC, message traces of
  `run_sequence`, `upload_and_run`, pending-response correlation;
* the EV3 transport auto-detection and daemon bootstrap
  (`ev3_micropython.py`);
* the multi-device `Conductor` (`conductor.py`) and the signal-based
  interactive sequence (`sp_fast.py`, `core/collaboration.py`).

Bytes are modelled as `Nat` (masked where overflow matters), byte strings
as `List Nat`, and stateful code as explicit state passing returning an
event/message trace.  Fallible paths return `Except`.
-/

namespace EV3SP

/-! ## CRC (carry-forward checksum)

Modelled from the spec: the CRC implementation is loaded from
`protocols/spike-prime-protocol/examples/python/crc.py`, which is not part
of the repository sources; per the spec it is a "running CRC": "a checksum
computed incrementally across all bytes sent so far, not per chunk, so that
the final value is the checksum of the whole payload", i.e. a CRC-32 whose
seed argument carries the checksum forward across chunks. -/

def crcMask : Nat := 0xFFFFFFFF

def crcPoly : Nat := 0xEDB88320

/-- One bit round of the reflected CRC-32 update. -/
def crcBitRound (a : Nat) : Nat :=
  if a % 2 = 1 then (a / 2) ^^^ crcPoly else a / 2

/-- Absorb one byte into the CRC accumulator. -/
def crcByteStep (acc b : Nat) : Nat :=
  crcBitRound^[8] (acc ^^^ (b % 256))

/-- Fold the raw (pre/post-conditioned) accumulator over a byte string. -/
def crcFold (seed : Nat) (data : List Nat) : Nat :=
  data.foldl crcByteStep seed

/-- Modelled from the spec: `crc(data, seed)` — CRC-32 of `data`, with the
seed carrying the running checksum forward (zlib-style: the CRC of `a ++ b`
is `crc b (crc a)`). -/
def crc (data : List Nat) (seed : Nat := 0) : Nat :=
  crcFold (seed ^^^ crcMask) data ^^^ crcMask

/-! ## Chunking

`for i in range(0, len(program), chunk_size): chunk = program[i:i+chunk_size]`
(`sp_interface.py:352-353`, `sp_fast.py:252-253`).  The `cs = 0` guard is
only for termination; Python raises on a zero step and every theorem below
assumes `0 < cs` (the device-negotiated `max_chunk_size`). -/
def chunks (cs : Nat) (l : List Nat) : List (List Nat) :=
  if h : cs = 0 ∨ l = [] then []
  else l.take cs :: chunks cs (l.drop cs)
termination_by l.length
decreasing_by
  push_neg at h
  have hl : l.length ≠ 0 := fun hz => h.2 (List.eq_nil_of_length_eq_zero hz)
  simp only [List.length_drop]
  omega

/-! ## Spike Prime messages and upload traces -/

/-- The BLE messages the host sends during upload/run
(`sp_interface.py`, message classes from the Spike protocol). -/
inductive SpikeMsg where
  | clearSlot (slot : Nat)
  | startFileUpload (name : String) (slot : Nat) (payloadCrc : Nat)
  | transferChunk (runningCrc : Nat) (chunk : List Nat)
  | programFlow (stop : Bool) (slot : Nat)
  deriving DecidableEq

/-- The chunk-transfer loop (`sp_fast.py:249-258`, `sp_interface.py:349-358`):
`running_crc = crc(chunk, running_crc)` then send
`TransferChunkRequest(running_crc, chunk)`. -/
def transferMsgs (seed : Nat) : List (List Nat) → List SpikeMsg
  | [] => []
  | c :: rest => .transferChunk (crc c seed) c :: transferMsgs (crc c seed) rest

/-- Messages of `_upload_to_slot(slot, program)` (`sp_fast.py:232-258`):
best-effort `ClearSlot`, then `StartFileUpload("program.py", slot, crc(program))`,
then the chunk transfers. -/
def uploadToSlotMsgs (cs slot : Nat) (program : List Nat) : List SpikeMsg :=
  .clearSlot slot
    :: .startFileUpload "program.py" slot (crc program)
    :: transferMsgs 0 (chunks cs program)

/-- Final running CRC after transferring a given chunk sequence
(the fold of the loop variable `running_crc`, seeded with `s`). -/
def runningCrcFinal (s : Nat) (cl : List (List Nat)) : Nat :=
  cl.foldl (fun acc c => crc c acc) s

/-! ### `run_sequence` program synthesis (`sp_fast.py:329-377`) -/

/-- Action tuples accepted by `run_sequence` (`("beep", f, d)`,
`("display", t)`, `("delay", ms)`); defaulted fields are applied. -/
inductive SeqAction where
  | beep (freq dur : Int)
  | display (text : String)
  | delay (ms : Nat)
  deriving DecidableEq

/-- Statements of the synthesized program body; the Python emits them as
source lines inside `async def main():` (`time.sleep` takes `ms/1000`). -/
inductive SeqStmt where
  | beep (freq dur : Int)
  | display (text : String)
  | sleepMs (ms : Nat)
  | printDone (i : Nat)
  deriving DecidableEq

/-- The single statement an action itself contributes. -/
def mainStmtOf : SeqAction → SeqStmt
  | .beep f d => .beep f d
  | .display t => .display t
  | .delay ms => .sleepMs ms

/-- Lines appended for one action by `run_sequence` (`sp_fast.py:350-363`):
the action's own statement, then `time.sleep(delay_ms/1000)` when
`delay_ms > 0`. -/
def seqActionStmts (delayMs : Nat) (a : SeqAction) : List SeqStmt :=
  [mainStmtOf a] ++ (if 0 < delayMs then [.sleepMs delayMs] else [])

/-- Body of the one synthesized program of `run_sequence` (the fixed
import/`sound.volume`/`runloop.run` prologue and epilogue surround it). -/
def runSequenceBody (actions : List SeqAction) (delayMs : Nat) : List SeqStmt :=
  (actions.map (seqActionStmts delayMs)).flatten

/-- Message trace of `run_sequence` (`sp_fast.py:370-374`): upload the one
program to scratch slot 18, then a single `ProgramFlow(stop=False, 18)`.
`encode` abstracts the source-text rendering to bytes. -/
def runSequenceTrace (cs : Nat) (encode : List SeqStmt → List Nat)
    (actions : List SeqAction) (delayMs : Nat) : List SpikeMsg :=
  uploadToSlotMsgs cs 18 (encode (runSequenceBody actions delayMs))
    ++ [.programFlow false 18]

/-- Recognizer for `StartFileUpload` messages. -/
def isStartUpload : SpikeMsg → Bool
  | .startFileUpload _ _ _ => true
  | _ => false

/-- Recognizer for `ProgramFlow(stop=False)` (program start) messages. -/
def isFlowStart : SpikeMsg → Bool
  | .programFlow stop _ => !stop
  | _ => false

/-- Chunk length of a `TransferChunk`, 0 for other messages. -/
def chunkLenOf : SpikeMsg → Nat
  | .transferChunk _ c => c.length
  | _ => 0

/-! ## Spike session state, request correlation, `upload_and_run` -/

/-- Errors the modelled BLE session can raise: `asyncio.wait_for` timing
out on the pending-response future (`sp_interface.py:317`).  The source
defines no `ProtocolError` class. -/
inductive SpikeErr where
  | timeout
  deriving DecidableEq

/-- Session state of `SpikeInterface`: the `_connected` flag, the default
`slot`, the single `_pending_response` cell `[response_type.ID, Future()]`
(futures are modelled by a fresh-id counter). -/
structure SpikeSession where
  connected : Bool
  slot : Nat
  pending : Option (Nat × Nat)
  futureCounter : Nat
  deriving DecidableEq

/-- `self._pending_response = [response_type.ID, asyncio.Future()]`
(`sp_interface.py:315`): unconditionally installs the new response id and a
fresh future, whatever the cell held before.  Returns the fresh future id. -/
def registerPending (st : SpikeSession) (respId : Nat) : SpikeSession × Nat :=
  ({ st with pending := some (respId, st.futureCounter),
             futureCounter := st.futureCounter + 1 },
   st.futureCounter)

/-- The registration phase of `_send_request` (`sp_interface.py:313-316`)
as it appears to a caller: it can only succeed — the source raises nothing
before awaiting the response. -/
def sendRequestRegister (st : SpikeSession) (respId : Nat) :
    Except SpikeErr (SpikeSession × Nat) :=
  .ok (registerPending st respId)

/-- `_on_data` response dispatch (`sp_interface.py:289-291`): a frame whose
message id matches the pending cell resolves the future stored there;
anything else resolves nothing.  Returns the resolved future id, if any. -/
def onData (st : SpikeSession) (msgId : Nat) : Option Nat :=
  match st.pending with
  | some (pid, fut) => if msgId = pid then some fut else none
  | none => none

/-- `disconnect` always ends with `self._connected = False`
(`sp_interface.py:258-276`; the stop/stop_notify attempts are best-effort). -/
def disconnectSession (st : SpikeSession) : SpikeSession :=
  { st with connected := false }

/-- One request/response exchange as seen in a message trace: the request
is written, then the response either arrives (`ok req = true`) or the await
raises (timeout / device error), modelled by `ok req = false`. -/
def sendChunkSeq (ok : SpikeMsg → Bool) : List SpikeMsg → Bool × List SpikeMsg
  | [] => (true, [])
  | m :: rest =>
    if ok m then
      let r := sendChunkSeq ok rest
      (r.1, m :: r.2)
    else (false, [m])

/-- `upload_and_run(program)` (`sp_interface.py:319-372`): returns `False`
immediately when not connected (sending nothing); otherwise best-effort
stop and clear, `StartFileUpload`, the chunk loop, and the final
`ProgramFlow(stop=False)` — any failing request aborts with `False` (the
outer `try` catches it after the message went out).  Result: success flag
and the trace of messages actually written. -/
def uploadAndRun (st : SpikeSession) (cs : Nat) (ok : SpikeMsg → Bool)
    (program : List Nat) : Bool × List SpikeMsg :=
  if st.connected = false then (false, [])
  else
    let stopMsg : SpikeMsg := .programFlow true st.slot
    let clearMsg : SpikeMsg := .clearSlot st.slot
    let startMsg : SpikeMsg := .startFileUpload "program.py" st.slot (crc program)
    let flowMsg : SpikeMsg := .programFlow false st.slot
    if ok startMsg = false then (false, [stopMsg, clearMsg, startMsg])
    else
      let tr := sendChunkSeq ok (transferMsgs 0 (chunks cs program))
      if tr.1 = false then (false, stopMsg :: clearMsg :: startMsg :: tr.2)
      else (ok flowMsg, stopMsg :: clearMsg :: startMsg :: tr.2 ++ [flowMsg])

/-! ## EV3 transport auto-detection (`ev3_micropython.py`) -/

/-- Transports in the fixed auto-detect priority order. -/
inductive TransportId where
  | usb
  | wifi
  | bluetooth
  deriving DecidableEq

/-- Outcome of one transport attempt: `_create_transport` returned `None`
(library/address missing); `transport.connect()` returned `False`; it
raised (caught by the loop's `try`); it connected but no `READY` line came
within the read timeout; or it connected and `READY` arrived. -/
inductive TOutcome where
  | unavailable
  | connectFail
  | connectRaise
  | noReady
  | ready
  deriving DecidableEq

/-- Interface state of `EV3MicroPython`: `_transport` and `_connected`. -/
structure EV3State where
  transport : Option TransportId
  connected : Bool
  deriving DecidableEq

/-- Events of the connection state machine. -/
inductive EV3Event where
  | connectTried (t : TransportId)
  | transportConnected (t : TransportId)
  | readyWait (t : TransportId) (timeoutSecs : Nat)
  | disconnected (t : TransportId)
  | sshKillStale
  | sshStartDetached
  | sleep (secs : Nat)
  deriving DecidableEq

/-- One iteration of the auto-detect loop body (`ev3_micropython.py:432-450`):
on `transport.connect()` success the code sets `self._transport = transport`
and `self._connected = True` before waiting (3 s) for `READY`; on no `READY`
it disconnects that transport and continues — without resetting the flags. -/
def tryOne (env : TransportId → TOutcome) (st : EV3State) (t : TransportId) :
    Bool × EV3State × List EV3Event :=
  match env t with
  | .unavailable => (false, st, [])
  | .connectFail => (false, st, [.connectTried t])
  | .connectRaise => (false, st, [.connectTried t])
  | .noReady =>
    (false, { transport := some t, connected := true },
     [.connectTried t, .transportConnected t, .readyWait t 3, .disconnected t])
  | .ready =>
    (true, { transport := some t, connected := true },
     [.connectTried t, .transportConnected t, .readyWait t 3])

/-- The auto-detect loop over a transport list, stopping at the first
success (`for transport_type in ["usb", "wifi", "bluetooth"]`). -/
def tryList (env : TransportId → TOutcome) (st : EV3State) :
    List TransportId → Bool × EV3State × List EV3Event
  | [] => (false, st, [])
  | t :: rest =>
    let r1 := tryOne env st t
    if r1.1 then r1
    else
      let r2 := tryList env r1.2.1 rest
      (r2.1, r2.2.1, r1.2.2 ++ r2.2.2)

/-- The fixed priority order of `_try_connect` (`ev3_micropython.py:432`). -/
def priorityOrder : List TransportId := [.usb, .wifi, .bluetooth]

/-- `_try_connect` in auto mode (`ev3_micropython.py:416-452`). -/
def tryConnect (env : TransportId → TOutcome) (st : EV3State) :
    Bool × EV3State × List EV3Event :=
  tryList env st priorityOrder

/-- Exceptions the modelled EV3 interface can raise
(`send` raises `ConnectionError` when not connected,
`ev3_micropython.py:548`); `connect` itself raises nothing. -/
inductive EV3Err where
  | connectionError (msg : String)
  deriving DecidableEq

/-- `_start_daemon_via_ssh` (`ev3_micropython.py:454-491`): on success the
side channel killed any stale daemon and started a detached one. -/
def sshBootstrap (sshOk : Bool) : Bool × List EV3Event :=
  if sshOk then (true, [.sshKillStale, .sshStartDetached]) else (false, [])

/-- The retry loop of `connect` (`ev3_micropython.py:406-411`):
`for attempt in range(5): wait 2 + attempt*2 seconds, then _try_connect()`. -/
def retryGo (outcomes : Nat → TransportId → TOutcome) :
    List Nat → EV3State → Bool × EV3State × List EV3Event
  | [], st => (false, st, [])
  | a :: rest, st =>
    let evS : List EV3Event := [.sleep (2 + a * 2)]
    let r1 := tryConnect (outcomes (a + 1)) st
    if r1.1 then (true, r1.2.1, evS ++ r1.2.2)
    else
      let r2 := retryGo outcomes rest r1.2.1
      (r2.1, r2.2.1, evS ++ r1.2.2 ++ r2.2.2)

/-- `connect` (`ev3_micropython.py:390-414`): first `_try_connect`; on
failure, when `auto_start_daemon` is set, bootstrap the daemon over SSH and
retry the full auto-connect up to 5 times with backoff 2,4,6,8,10 s;
exhausting everything *returns* `False` (no exception is raised).
`outcomes n` gives the per-transport outcomes of the n-th `_try_connect`. -/
def connectModel (outcomes : Nat → TransportId → TOutcome)
    (autoStart sshOk : Bool) (st : EV3State) :
    Except EV3Err Bool × EV3State × List EV3Event :=
  let r0 := tryConnect (outcomes 0) st
  if r0.1 then (.ok true, r0.2.1, r0.2.2)
  else if autoStart then
    let sb := sshBootstrap sshOk
    if sb.1 then
      let rr := retryGo outcomes [0, 1, 2, 3, 4] r0.2.1
      (.ok rr.1, rr.2.1, r0.2.2 ++ sb.2 ++ rr.2.2)
    else (.ok false, r0.2.1, r0.2.2 ++ sb.2)
  else (.ok false, r0.2.1, r0.2.2)

/-- Sleep durations occurring in a trace, in order. -/
def sleepsOf (tr : List EV3Event) : List Nat :=
  tr.filterMap fun e =>
    match e with
    | .sleep n => some n
    | _ => none

/-! ## Conductor (`projects/orchestra/conductor.py`) -/

/-- Device platforms handled by the conductor. -/
inductive Platform where
  | ev3
  | spike
  deriving DecidableEq

/-- One registry entry: a `DeviceState` (name, platform, `connected` flag,
`latency_ms`).  `add_ev3`/`add_spike` create it with `connected = False`. -/
structure DeviceRec where
  name : String
  platform : Platform
  connected : Bool
  latencyMs : Nat
  deriving DecidableEq

/-- How one device's `_connect_device` plays out: the platform connect
succeeds, returns `False` (e.g. EV3 with no project), or raises (caught by
`_connect_device`, which returns `False`). -/
inductive ConnOutcome where
  | success
  | failure
  | raises
  deriving DecidableEq

/-- `_connect_device(name)` (`conductor.py:183-198`): exceptions are caught
and turned into `False`; only a successful platform connect sets the
device's `connected` flag. -/
def connectDevice (env : String → ConnOutcome) (d : DeviceRec) : DeviceRec × Bool :=
  match env d.name with
  | .success => ({ d with connected := true }, true)
  | .failure => (d, false)
  | .raises => (d, false)

/-- Task creation order of `connect_all` (`conductor.py:167-175`): all EV3
devices first, then the rest; `asyncio.gather` then runs them all. -/
def taskOrder (devices : List DeviceRec) : List String :=
  (devices.filter fun d => d.platform = Platform.ev3).map (·.name)
    ++ (devices.filter fun d => ¬d.platform = Platform.ev3).map (·.name)

/-- Errors `connect_all` could surface; `gather(..., return_exceptions=True)`
plus the per-device `try` mean it raises none. -/
inductive ConductorErr where
  | uncaught (msg : String)
  deriving DecidableEq

/-- `connect_all` (`conductor.py:162-181`): run every device's
`_connect_device` (device states are updated independently), count the
`connected` flags, and return `success_count == len(devices)`. -/
def connectAll (env : String → ConnOutcome) (devices : List DeviceRec) :
    Except ConductorErr (Bool × List DeviceRec) :=
  let states := devices.map fun d => (connectDevice env d).1
  .ok (decide (states.countP (·.connected) = states.length), states)

/-- Outcome of the platform-specific send for one `send` call. -/
inductive SendOutcome where
  | ok (latencyMs : Nat)
  | raises
  deriving DecidableEq

/-- The transport-specific send (`_send_ev3` / `_send_spike`) with the
measured round-trip latency, as an exception-transparent call. -/
def platformSend (env : SendOutcome) : Except String Nat :=
  match env with
  | .ok lat => .ok lat
  | .raises => .error "send failed"

/-- Update the registry entry of one device. -/
def updateDevice (reg : List DeviceRec) (name : String)
    (f : DeviceRec → DeviceRec) : List DeviceRec :=
  reg.map fun d => if d.name = name then f d else d

/-- `Conductor.send(device_name, action)` (`conductor.py:295-323`): unknown
or unconnected device gives `(False, 0)`; otherwise the platform send runs,
a success records the measured latency on the `DeviceState` and returns
`(True, latency)`, and any exception is caught and reported as `(False, 0)`
without touching the state. -/
def conductorSend (env : SendOutcome) (reg : List DeviceRec) (name : String) :
    (Bool × Nat) × List DeviceRec :=
  match reg.find? (fun d => d.name = name) with
  | none => ((false, 0), reg)
  | some d =>
    if d.connected = false then ((false, 0), reg)
    else
      match platformSend env with
      | .ok lat => ((true, lat), updateDevice reg name fun e => { e with latencyMs := lat })
      | .error _ => ((false, 0), reg)

/-! ## Signal-based execution (`sp_fast.py:392-477`, `core/collaboration.py`) -/

/-- Statements appended per action by `run_interactive_sequence`
(`sp_fast.py:417-429`): the action's own statement (none for an
unrecognized tuple), then `print("DONE:<i>")` and a 1 s settle delay. -/
def interactiveStmts (i : Nat) (a : SeqAction) : List SeqStmt :=
  (match a with
   | .beep f d => [SeqStmt.beep f d]
   | .display t => [SeqStmt.display t]
   | .delay _ => [])
    ++ [.printDone i, .sleepMs 1000]

/-- Body of the one synthesized interactive program. -/
def interactiveBody (actions : List SeqAction) : List SeqStmt :=
  (actions.enum.map fun p => interactiveStmts p.1 p.2).flatten

/-- The signal-await loop of `run_interactive_sequence`
(`sp_fast.py:460-472`): for each action index, await the queue with a 5 s
timeout; on a signal, increment `completed` and invoke
`on_action_done(completed)`; on timeout, break.  `signals` are the parsed
`DONE:` indices that arrive (in queue order); the result is the list of
callback arguments and the durations of waits that timed out. -/
def interactiveLoop (signals : List Nat) (remaining completed : Nat) :
    List Nat × List Nat :=
  match remaining with
  | 0 => ([], [])
  | r + 1 =>
    match signals with
    | [] => ([], [5])
    | _ :: rest =>
      let t := interactiveLoop rest r (completed + 1)
      ((completed + 1) :: t.1, t.2)

/-- `run_interactive_sequence` signal handling over `n` actions: callback
argument list and timed-out waits. -/
def runInteractive (n : Nat) (signals : List Nat) : List Nat × List Nat :=
  interactiveLoop signals n 0

/-- `SignalBasedPattern.execute` (`core/collaboration.py:196-218`): for
every action, dispatch it and then wait on the signal queue with a 5 s
timeout; `SignalQueue.wait` returns `None` on timeout and the loop simply
proceeds to the next action.  Returns, per action, whether a signal was
consumed, and the list of timed-out wait durations. -/
def signalBasedExecute (signals : List Nat) : Nat → List Bool × List Nat
  | 0 => ([], [])
  | n + 1 =>
    match signals with
    | [] =>
      let t := signalBasedExecute [] n
      (false :: t.1, 5 :: t.2)
    | _ :: rest =>
      let t := signalBasedExecute rest n
      (true :: t.1, t.2)

/-! ## Concrete scenarios -/

/-- Scenario of spec §8: USB is available and connects but yields no
`READY`; WiFi connects and yields `READY`; Bluetooth is unavailable. -/
def env3 : TransportId → TOutcome
  | .usb => .noReady
  | .wifi => .ready
  | .bluetooth => .unavailable

/-- Scenario: USB connects but yields no `READY`, WiFi's connect fails,
Bluetooth is unavailable — every attempt fails. -/
def env6 : TransportId → TOutcome
  | .usb => .noReady
  | .wifi => .connectFail
  | .bluetooth => .unavailable

/-- Every transport's connect fails on every attempt. -/
def envAllFail : Nat → TransportId → TOutcome := fun _ _ => .connectFail

/-- A freshly constructed `EV3MicroPython` interface. -/
def evSt0 : EV3State := { transport := none, connected := false }

/-- A Spike session with a correlated request already pending
(awaiting response id 10 on future 0). -/
def spikePending0 : SpikeSession :=
  { connected := true, slot := 0, pending := some (10, 0), futureCounter := 1 }

/-- A Spike session that never connected (default slot 19). -/
def spikeDisconn : SpikeSession :=
  { connected := false, slot := 19, pending := none, futureCounter := 0 }

/-- A device environment in which every request is acknowledged. -/
def okAll : SpikeMsg → Bool := fun _ => true

/-- Device "B" always fails (its connect raises); everything else connects. -/
def env7 : String → ConnOutcome := fun n => if n = "B" then .raises else .success

/-- A two-device registry: an EV3 ("B") and a Spike Prime ("A"), fresh. -/
def devices7 : List DeviceRec :=
  [{ name := "B", platform := .ev3, connected := false, latencyMs := 0 },
   { name := "A", platform := .spike, connected := false, latencyMs := 0 }]

/-- A registry with one connected Spike device. -/
def reg8 : List DeviceRec :=
  [{ name := "spike", platform := .spike, connected := true, latencyMs := 7 }]

/-- Three beep actions. -/
def actions9 : List SeqAction :=
  [.beep 880 200, .beep 440 200, .beep 220 200]

/-- Two beep actions for a `run_sequence` batch. -/
def actions1 : List SeqAction := [.beep 880 200, .beep 440 200]

/-- A degenerate byte rendering (the upload-count theorems hold for any). -/
def encode0 : List SeqStmt → List Nat := fun _ => []

/-! ## CRC lemmas -/

theorem xor_xor_cancel (x m : Nat) : x ^^^ m ^^^ m = x := by
  rw [Nat.xor_assoc, Nat.xor_self, Nat.xor_zero]

theorem crcFold_append (s : Nat) (a b : List Nat) :
    crcFold s (a ++ b) = crcFold (crcFold s a) b := by
  simp [crcFold]

/-- Carry-forward composability: the CRC of a concatenation equals the CRC
of the second part seeded with the CRC of the first. -/
theorem crc_append (a b : List Nat) (s : Nat) :
    crc (a ++ b) s = crc b (crc a s) := by
  simp [crc, crcFold_append, xor_xor_cancel]

theorem crc_nil (s : Nat) : crc [] s = s := by
  simp [crc, crcFold, xor_xor_cancel]

/-- Folding the running CRC over a chunk list computes the CRC of the
concatenation. -/
theorem runningCrcFinal_eq (cl : List (List Nat)) :
    ∀ s, runningCrcFinal s cl = crc cl.flatten s := by
  induction cl with
  | nil => intro s; simp [runningCrcFinal, crc_nil]
  | cons c rest ih =>
    intro s
    simp only [runningCrcFinal, List.foldl_cons, List.flatten_cons, crc_append]
    exact ih (crc c s)

/-! ## Chunking lemmas -/

theorem chunks_flatten (cs : Nat) (hcs : 0 < cs) (l : List Nat) :
    (chunks cs l).flatten = l := by
  rw [chunks]
  split
  · rename_i h
    rcases h with h | h
    · omega
    · simp [h]
  · rename_i h
    push_neg at h
    simp only [List.flatten_cons, chunks_flatten cs hcs (l.drop cs),
      List.take_append_drop]
termination_by l.length
decreasing_by
  rename_i h
  push_neg at h
  have hl : l.length ≠ 0 := fun hz => h.2 (List.eq_nil_of_length_eq_zero hz)
  simp only [List.length_drop]
  omega

theorem chunks_length_le (cs : Nat) (hcs : 0 < cs) (l : List Nat) :
    ∀ c ∈ chunks cs l, c.length ≤ cs := by
  rw [chunks]
  split
  · simp
  · rename_i h
    push_neg at h
    intro c hc
    rcases List.mem_cons.mp hc with rfl | hmem
    · simp only [List.length_take]
      omega
    · exact chunks_length_le cs hcs (l.drop cs) c hmem
termination_by l.length
decreasing_by
  rename_i h
  push_neg at h
  have hl : l.length ≠ 0 := fun hz => h.2 (List.eq_nil_of_length_eq_zero hz)
  simp only [List.length_drop]
  omega

/-! ## Transfer-trace lemmas -/

theorem transferMsgs_mem (cl : List (List Nat)) :
    ∀ (s : Nat) (m : SpikeMsg), m ∈ transferMsgs s cl →
      ∃ rc c, c ∈ cl ∧ m = .transferChunk rc c := by
  induction cl with
  | nil => intro s m hm; simp [transferMsgs] at hm
  | cons c rest ih =>
    intro s m hm
    rcases List.mem_cons.mp hm with rfl | hm2
    · exact ⟨crc c s, c, List.mem_cons_self c rest, rfl⟩
    · obtain ⟨rc, c2, hc2, rfl⟩ := ih (crc c s) m hm2
      exact ⟨rc, c2, List.mem_cons_of_mem c hc2, rfl⟩

/-- The k-th `TransferChunk` carries the CRC of all bytes transferred so
far: the fold of the first k+1 chunks, seeded with the initial seed. -/
theorem transferMsgs_getElem (cl : List (List Nat)) :
    ∀ (seed k : Nat) (c : List Nat), cl[k]? = some c →
      (transferMsgs seed cl)[k]? =
        some (.transferChunk (crc ((cl.take (k + 1)).flatten) seed) c) := by
  induction cl with
  | nil => intro seed k c h; simp at h
  | cons c0 rest ih =>
    intro seed k c h
    match k with
    | 0 =>
      simp only [List.getElem?_cons_zero, Option.some_inj] at h
      subst h
      simp [transferMsgs, crc_append, crc_nil]
    | k + 1 =>
      simp only [List.getElem?_cons_succ] at h
      simp only [transferMsgs, List.getElem?_cons_succ, ih (crc c0 seed) k c h,
        List.take_succ_cons, List.flatten_cons, crc_append]

theorem transferMsgs_countP_startUpload (cl : List (List Nat)) (s : Nat) :
    (transferMsgs s cl).countP isStartUpload = 0 := by
  rw [List.countP_eq_zero]
  intro m hm
  obtain ⟨rc, c, _, rfl⟩ := transferMsgs_mem cl s m hm
  simp [isStartUpload]

theorem transferMsgs_countP_flowStart (cl : List (List Nat)) (s : Nat) :
    (transferMsgs s cl).countP isFlowStart = 0 := by
  rw [List.countP_eq_zero]
  intro m hm
  obtain ⟨rc, c, _, rfl⟩ := transferMsgs_mem cl s m hm
  simp [isFlowStart]

/-- Each action's own statement occurs in the synthesized body, in order. -/
theorem mainStmts_sublist (delayMs : Nat) (actions : List SeqAction) :
    (actions.map mainStmtOf).Sublist (runSequenceBody actions delayMs) := by
  induction actions with
  | nil => simp [runSequenceBody]
  | cons a rest ih =>
    simp only [runSequenceBody, List.map_cons, List.flatten_cons, seqActionStmts,
      List.singleton_append, List.cons_append]
    exact List.Sublist.cons₂ (mainStmtOf a)
      (ih.trans (List.sublist_append_right _ _))

/-! ## Claim theorems -/

/-- Claim C1: for every nonempty action list, `run_sequence` synthesizes a
single program whose body contains all the actions' statements in order,
and its message trace performs exactly one upload — one `StartFileUpload`
(immediately followed by its `TransferChunk`s and nothing else) — and
exactly one `ProgramFlow(stop=False)` start message, regardless of the
number of actions. -/
theorem runSequence_single_upload_single_start
    (cs delayMs : Nat) (encode : List SeqStmt → List Nat)
    (actions : List SeqAction) (hN : actions ≠ []) (hcs : 0 < cs) :
    ((runSequenceTrace cs encode actions delayMs).countP isStartUpload = 1) ∧
    ((runSequenceTrace cs encode actions delayMs).countP isFlowStart = 1) ∧
    (runSequenceTrace cs encode actions delayMs =
      SpikeMsg.clearSlot 18
        :: SpikeMsg.startFileUpload "program.py" 18
             (crc (encode (runSequenceBody actions delayMs)))
        :: (transferMsgs 0 (chunks cs (encode (runSequenceBody actions delayMs)))
             ++ [SpikeMsg.programFlow false 18])) ∧
    (actions.map mainStmtOf).Sublist (runSequenceBody actions delayMs) := by
  refine ⟨?_, ?_, ?_, mainStmts_sublist delayMs actions⟩
  · simp [runSequenceTrace, uploadToSlotMsgs, List.countP_cons, List.countP_append,
      isStartUpload, transferMsgs_countP_startUpload]
  · simp [runSequenceTrace, uploadToSlotMsgs, List.countP_cons, List.countP_append,
      isFlowStart, transferMsgs_countP_flowStart]
  · simp [runSequenceTrace, uploadToSlotMsgs]

/-- Witness for C1 at two actions with chunk size 100. -/
theorem runSequence_single_upload_single_start_witness :
    (actions1 ≠ [] ∧ 0 < 100) ∧
    (((runSequenceTrace 100 encode0 actions1 100).countP isStartUpload = 1) ∧
     ((runSequenceTrace 100 encode0 actions1 100).countP isFlowStart = 1) ∧
     (runSequenceTrace 100 encode0 actions1 100 =
       SpikeMsg.clearSlot 18
         :: SpikeMsg.startFileUpload "program.py" 18
              (crc (encode0 (runSequenceBody actions1 100)))
         :: (transferMsgs 0 (chunks 100 (encode0 (runSequenceBody actions1 100)))
              ++ [SpikeMsg.programFlow false 18])) ∧
     (actions1.map mainStmtOf).Sublist (runSequenceBody actions1 100)) :=
  ⟨⟨by decide, by decide⟩,
   runSequence_single_upload_single_start 100 100 encode0 actions1
     (by decide) (by decide)⟩

/-- Claim C2: during upload every transferred chunk is at most the
negotiated `max_chunk_size` long; the k-th `TransferChunk` carries the
carry-forward CRC of all bytes transferred so far (each chunk's CRC seeded
with the previous running CRC); and for every partitioning of the payload
into chunks, the final running CRC equals the CRC of the whole payload —
the value sent in `StartFileUpload`.
(The CRC itself is modelled from the spec: its implementation is loaded
from outside the repository sources.) -/
theorem upload_chunk_crc_invariants (cs : Nat) (payload : List Nat)
    (hcs : 0 < cs) :
    (∀ m ∈ transferMsgs 0 (chunks cs payload), chunkLenOf m ≤ cs) ∧
    (∀ (k : Nat) (c : List Nat), (chunks cs payload)[k]? = some c →
       (transferMsgs 0 (chunks cs payload))[k]? =
         some (.transferChunk (crc (((chunks cs payload).take (k + 1)).flatten)) c)) ∧
    (∀ partition : List (List Nat), partition.flatten = payload →
       runningCrcFinal 0 partition = crc payload) ∧
    (∀ slot, (uploadToSlotMsgs cs slot payload)[1]? =
       some (.startFileUpload "program.py" slot (crc payload))) := by
  refine ⟨?_, ?_, ?_, ?_⟩
  · intro m hm
    obtain ⟨rc, c, hc, rfl⟩ := transferMsgs_mem _ 0 m hm
    simpa [chunkLenOf] using chunks_length_le cs hcs payload c hc
  · intro k c hk
    exact transferMsgs_getElem (chunks cs payload) 0 k c hk
  · intro partition hp
    rw [runningCrcFinal_eq, hp]
  · intro slot
    simp [uploadToSlotMsgs]

/-- Witness for C2: payload `[1,2,3]` with chunk size 2, and the partition
`[[1],[2,3]]` whose running CRC matches the whole-payload CRC. -/
theorem upload_chunk_crc_invariants_witness :
    (0 < 2 ∧ ([[1], [2, 3]] : List (List Nat)).flatten = [1, 2, 3]) ∧
    runningCrcFinal 0 [[1], [2, 3]] = crc [1, 2, 3] :=
  ⟨⟨by decide, by decide⟩,
   (upload_chunk_crc_invariants 2 [1, 2, 3] (by decide)).2.2.1 [[1], [2, 3]]
     (by decide)⟩

/-! ## EV3 auto-connect lemmas -/

theorem tryList_ok_iff (env : TransportId → TOutcome) :
    ∀ (l : List TransportId) (st : EV3State),
      (tryList env st l).1 =
        (l.find? fun t => decide (env t = TOutcome.ready)).isSome := by
  intro l
  induction l with
  | nil => intro st; simp [tryList]
  | cons t rest ih =>
    intro st
    cases henv : env t <;>
      simp [tryList, tryOne, henv, List.find?_cons, ih]

theorem tryList_found_state (env : TransportId → TOutcome) :
    ∀ (l : List TransportId) (st : EV3State) (t : TransportId),
      (l.find? fun u => decide (env u = TOutcome.ready)) = some t →
        (tryList env st l).2.1.transport = some t ∧
        (tryList env st l).2.1.connected = true := by
  intro l
  induction l with
  | nil => intro st t h; simp at h
  | cons u rest ih =>
    intro st t h
    cases henv : env u with
    | ready =>
      have ht : u = t := by simpa [List.find?_cons, henv] using h
      subst ht
      simp [tryList, tryOne, henv]
    | unavailable =>
      have h2 : (rest.find? fun u => decide (env u = TOutcome.ready)) = some t := by
        simpa [List.find?_cons, henv] using h
      simpa [tryList, tryOne, henv] using ih st t h2
    | connectFail =>
      have h2 : (rest.find? fun u => decide (env u = TOutcome.ready)) = some t := by
        simpa [List.find?_cons, henv] using h
      simpa [tryList, tryOne, henv] using ih st t h2
    | connectRaise =>
      have h2 : (rest.find? fun u => decide (env u = TOutcome.ready)) = some t := by
        simpa [List.find?_cons, henv] using h
      simpa [tryList, tryOne, henv] using ih st t h2
    | noReady =>
      have h2 : (rest.find? fun u => decide (env u = TOutcome.ready)) = some t := by
        simpa [List.find?_cons, henv] using h
      simpa [tryList, tryOne, henv] using
        ih { transport := some u, connected := true } t h2

/-- Shape of one loop step's trace: the head attempt's events, followed by
the rest of the loop when the attempt failed. -/
theorem tryList_trace_shape (env : TransportId → TOutcome) (st : EV3State)
    (u : TransportId) (rest : List TransportId) :
    (tryList env st (u :: rest)).2.2 =
      (tryOne env st u).2.2 ++
        (if (tryOne env st u).1 then []
         else (tryList env (tryOne env st u).2.1 rest).2.2) := by
  by_cases h : (tryOne env st u).1 <;> simp [tryList, h]

/-- A `transportConnected` event in one attempt's trace identifies the
transport and shows its connect succeeded. -/
theorem tryOne_connected_mem (env : TransportId → TOutcome) (st : EV3State)
    (u t : TransportId)
    (h1 : EV3Event.transportConnected t ∈ (tryOne env st u).2.2) :
    t = u ∧ (env u = TOutcome.noReady ∨ env u = TOutcome.ready) := by
  cases henv : env u
  case unavailable => rw [tryOne, henv] at h1; simp at h1
  case connectFail => rw [tryOne, henv] at h1; simp at h1
  case connectRaise => rw [tryOne, henv] at h1; simp at h1
  case noReady =>
    rw [tryOne, henv] at h1
    simp at h1
    exact ⟨h1, Or.inl rfl⟩
  case ready =>
    rw [tryOne, henv] at h1
    simp at h1
    exact ⟨h1, Or.inr rfl⟩

/-- Every `readyWait` event carries the 3-second timeout. -/
theorem tryOne_readyWait_mem (env : TransportId → TOutcome) (st : EV3State)
    (u t : TransportId) (n : Nat)
    (h1 : EV3Event.readyWait t n ∈ (tryOne env st u).2.2) : n = 3 := by
  cases henv : env u
  case unavailable => rw [tryOne, henv] at h1; simp at h1
  case connectFail => rw [tryOne, henv] at h1; simp at h1
  case connectRaise => rw [tryOne, henv] at h1; simp at h1
  case noReady => rw [tryOne, henv] at h1; simp at h1; exact h1.2
  case ready => rw [tryOne, henv] at h1; simp at h1; exact h1.2

/-- The trace of a no-`READY` attempt. -/
theorem tryOne_noReady_trace (env : TransportId → TOutcome) (st : EV3State)
    (u : TransportId) (h : env u = TOutcome.noReady) :
    (tryOne env st u).2.2 =
      [.connectTried u, .transportConnected u, .readyWait u 3, .disconnected u] := by
  rw [tryOne, h]

theorem tryList_noReady_disc (env : TransportId → TOutcome) :
    ∀ (l : List TransportId) (st : EV3State) (t : TransportId),
      env t = TOutcome.noReady →
      EV3Event.transportConnected t ∈ (tryList env st l).2.2 →
      EV3Event.disconnected t ∈ (tryList env st l).2.2 := by
  intro l
  induction l with
  | nil => intro st t ht hm; simp [tryList] at hm
  | cons u rest ih =>
    intro st t ht hm
    rw [tryList_trace_shape] at hm ⊢
    rcases List.mem_append.mp hm with h1 | h2
    · obtain ⟨rfl, _⟩ := tryOne_connected_mem env st u t h1
      refine List.mem_append_left _ ?_
      rw [tryOne_noReady_trace env st t ht]
      simp
    · by_cases hif : (tryOne env st u).1 = true
      · rw [if_pos hif] at h2; simp at h2
      · rw [if_neg hif] at h2 ⊢
        exact List.mem_append_right _ (ih _ t ht h2)

theorem tryList_readyWait3 (env : TransportId → TOutcome) :
    ∀ (l : List TransportId) (st : EV3State) (t : TransportId) (n : Nat),
      EV3Event.readyWait t n ∈ (tryList env st l).2.2 → n = 3 := by
  intro l
  induction l with
  | nil => intro st t n hm; simp [tryList] at hm
  | cons u rest ih =>
    intro st t n hm
    rw [tryList_trace_shape] at hm
    rcases List.mem_append.mp hm with h1 | h2
    · exact tryOne_readyWait_mem env st u t n h1
    · by_cases hif : (tryOne env st u).1 = true
      · rw [if_pos hif] at h2; simp at h2
      · rw [if_neg hif] at h2
        exact ih _ t n h2

theorem tryList_false_disc (env : TransportId → TOutcome) :
    ∀ (l : List TransportId) (st : EV3State),
      (tryList env st l).1 = false →
      ∀ t, EV3Event.transportConnected t ∈ (tryList env st l).2.2 →
           EV3Event.disconnected t ∈ (tryList env st l).2.2 := by
  intro l
  induction l with
  | nil => intro st _ t hm; simp [tryList] at hm
  | cons u rest ih =>
    intro st hfail t hm
    have hok : (tryOne env st u).1 = false := by
      by_contra hok
      rw [Bool.not_eq_false] at hok
      simp [tryList, hok] at hfail
    have hrest : (tryList env (tryOne env st u).2.1 rest).1 = false := by
      simpa [tryList, hok] using hfail
    rw [tryList_trace_shape] at hm ⊢
    rcases List.mem_append.mp hm with h1 | h2
    · obtain ⟨rfl, hcase⟩ := tryOne_connected_mem env st u t h1
      rcases hcase with hnr | hrd
      · refine List.mem_append_left _ ?_
        rw [tryOne_noReady_trace env st t hnr]
        simp
      · rw [tryOne, hrd] at hok; simp at hok
    · rw [if_neg (by simp [hok])] at h2 ⊢
      exact List.mem_append_right _ (ih _ hrest t h2)

theorem sleepsOf_append (a b : List EV3Event) :
    sleepsOf (a ++ b) = sleepsOf a ++ sleepsOf b := by
  simp [sleepsOf]

theorem tryOne_sleeps (env : TransportId → TOutcome) (st : EV3State)
    (u : TransportId) : sleepsOf (tryOne env st u).2.2 = [] := by
  cases henv : env u <;> simp [tryOne, henv, sleepsOf]

theorem tryList_sleeps (env : TransportId → TOutcome) :
    ∀ (l : List TransportId) (st : EV3State),
      sleepsOf (tryList env st l).2.2 = [] := by
  intro l
  induction l with
  | nil => intro st; simp [tryList, sleepsOf]
  | cons u rest ih =>
    intro st
    rw [tryList_trace_shape, sleepsOf_append, tryOne_sleeps]
    by_cases h : (tryOne env st u).1 = true
    · rw [if_pos h]; rfl
    · rw [if_neg h]; rw [ih]; rfl

/-- Sleeps of a failed `_try_connect` call. -/
theorem tryConnect_sleeps (env : TransportId → TOutcome) (st : EV3State) :
    sleepsOf (tryConnect env st).2.2 = [] :=
  tryList_sleeps env priorityOrder st

theorem tryConnect_false_of_noReady (env : TransportId → TOutcome)
    (h : ∀ t, env t ≠ TOutcome.ready) (st : EV3State) :
    (tryConnect env st).1 = false := by
  rw [tryConnect, tryList_ok_iff]
  have : (priorityOrder.find? fun t => decide (env t = TOutcome.ready)) = none :=
    List.find?_eq_none.mpr fun t _ => by simpa using h t
  simp [this]

theorem retryGo_all_fail (outcomes : Nat → TransportId → TOutcome)
    (h : ∀ n t, outcomes n t ≠ TOutcome.ready) :
    ∀ (attempts : List Nat) (st : EV3State),
      (retryGo outcomes attempts st).1 = false ∧
      sleepsOf (retryGo outcomes attempts st).2.2 =
        attempts.map (fun a => 2 + a * 2) := by
  intro attempts
  induction attempts with
  | nil => intro st; simp [retryGo, sleepsOf]
  | cons a rest ih =>
    intro st
    have hf : (tryConnect (outcomes (a + 1)) st).1 = false :=
      tryConnect_false_of_noReady _ (h (a + 1)) st
    obtain ⟨ih1, ih2⟩ := ih (tryConnect (outcomes (a + 1)) st).2.1
    have hshape :
        retryGo outcomes (a :: rest) st =
          ((retryGo outcomes rest (tryConnect (outcomes (a + 1)) st).2.1).1,
           (retryGo outcomes rest (tryConnect (outcomes (a + 1)) st).2.1).2.1,
           [EV3Event.sleep (2 + a * 2)] ++ (tryConnect (outcomes (a + 1)) st).2.2
             ++ (retryGo outcomes rest (tryConnect (outcomes (a + 1)) st).2.1).2.2) := by
      simp [retryGo, hf]
    rw [hshape]
    refine ⟨ih1, ?_⟩
    rw [sleepsOf_append, sleepsOf_append, tryConnect_sleeps, ih2]
    rfl

/-! ## Claims C3, C5, C6 -/

/-- Claim C3: in auto mode, `_try_connect` tries USB, WiFi-TCP, Bluetooth
in that fixed order; success is reported exactly when some transport both
connects and yields `READY`, and the session ends on the first such
transport; a transport that connects without `READY` is disconnected (the
next one is tried; its absence is not a hard failure); every `READY` wait
uses the 3-second read timeout. -/
theorem autoConnect_priority_first_ready (env : TransportId → TOutcome)
    (st : EV3State) :
    ((tryConnect env st).1 =
       (priorityOrder.find? fun t => decide (env t = TOutcome.ready)).isSome) ∧
    (∀ t, (priorityOrder.find? fun t => decide (env t = TOutcome.ready)) = some t →
       (tryConnect env st).2.1.transport = some t ∧
       (tryConnect env st).2.1.connected = true) ∧
    (∀ t, env t = TOutcome.noReady →
       EV3Event.transportConnected t ∈ (tryConnect env st).2.2 →
       EV3Event.disconnected t ∈ (tryConnect env st).2.2) ∧
    (∀ t n, EV3Event.readyWait t n ∈ (tryConnect env st).2.2 → n = 3) :=
  ⟨tryList_ok_iff env priorityOrder st,
   fun t h => tryList_found_state env priorityOrder st t h,
   fun t ht hm => tryList_noReady_disc env priorityOrder st t ht hm,
   fun t n hm => tryList_readyWait3 env priorityOrder st t n hm⟩

/-- Witness for C3: the spec §8 scenario — USB connects but yields no
`READY`, WiFi yields `READY` — ends connected on WiFi, with USB's transport
disconnected. -/
theorem autoConnect_priority_first_ready_witness :
    ((priorityOrder.find? fun t => decide (env3 t = TOutcome.ready)) =
        some TransportId.wifi ∧
      env3 TransportId.usb = TOutcome.noReady ∧
      EV3Event.transportConnected TransportId.usb ∈ (tryConnect env3 evSt0).2.2) ∧
    ((tryConnect env3 evSt0).1 = true ∧
     (tryConnect env3 evSt0).2.1.transport = some TransportId.wifi ∧
     EV3Event.disconnected TransportId.usb ∈ (tryConnect env3 evSt0).2.2) := by
  refine ⟨⟨by decide, rfl, by decide⟩, ?_, ?_, ?_⟩
  · rw [(autoConnect_priority_first_ready env3 evSt0).1]; decide
  · exact ((autoConnect_priority_first_ready env3 evSt0).2.1
      TransportId.wifi (by decide)).1
  · exact (autoConnect_priority_first_ready env3 evSt0).2.2.1
      TransportId.usb rfl (by decide)

/-- Claim C5, counterexample to the error-surfacing part: with bootstrap
enabled and every transport failing on every attempt, `connect` performs
the five backoff retries (2,4,6,8,10 s) and then *returns* `False` — it
does not raise a `ConnectionFailed` (or any) error; no such exception class
exists in the source. -/
theorem connect_exhausted_returns_false :
    (connectModel envAllFail true true evSt0).1 = Except.ok false ∧
    sleepsOf (connectModel envAllFail true true evSt0).2.2 = [2, 4, 6, 8, 10] := by
  constructor <;> rfl

/-- Claim C5 (amended): when every transport fails and bootstrap is
enabled, `connect` opens the SSH side channel (kills any stale daemon,
starts the daemon detached) and retries the full auto-connect sequence up
to 5 times with linearly increasing backoff 2,4,6,8,10 s; exhausting all
retries makes `connect` return `False` (no exception is raised). -/
theorem connect_bootstrap_retry_backoff (outcomes : Nat → TransportId → TOutcome)
    (st : EV3State) (hfail : ∀ n t, outcomes n t ≠ TOutcome.ready) :
    (connectModel outcomes true true st).1 = Except.ok false ∧
    sleepsOf (connectModel outcomes true true st).2.2 = [2, 4, 6, 8, 10] ∧
    EV3Event.sshKillStale ∈ (connectModel outcomes true true st).2.2 ∧
    EV3Event.sshStartDetached ∈ (connectModel outcomes true true st).2.2 := by
  have h0 : (tryConnect (outcomes 0) st).1 = false :=
    tryConnect_false_of_noReady _ (hfail 0) st
  obtain ⟨hr, hs⟩ :=
    retryGo_all_fail outcomes hfail [0, 1, 2, 3, 4] (tryConnect (outcomes 0) st).2.1
  have hshape :
      connectModel outcomes true true st =
        (Except.ok (retryGo outcomes [0, 1, 2, 3, 4] (tryConnect (outcomes 0) st).2.1).1,
         (retryGo outcomes [0, 1, 2, 3, 4] (tryConnect (outcomes 0) st).2.1).2.1,
         (tryConnect (outcomes 0) st).2.2
           ++ [EV3Event.sshKillStale, EV3Event.sshStartDetached]
           ++ (retryGo outcomes [0, 1, 2, 3, 4] (tryConnect (outcomes 0) st).2.1).2.2) := by
    simp [connectModel, h0, sshBootstrap]
  rw [hshape]
  refine ⟨by rw [hr], ?_, ?_, ?_⟩
  · rw [sleepsOf_append, sleepsOf_append, tryConnect_sleeps, hs]
    rfl
  · simp
  · simp

/-- Witness for the amended C5 at the all-fail environment. -/
theorem connect_bootstrap_retry_backoff_witness :
    (∀ n t, envAllFail n t ≠ TOutcome.ready) ∧
    ((connectModel envAllFail true true evSt0).1 = Except.ok false ∧
     sleepsOf (connectModel envAllFail true true evSt0).2.2 = [2, 4, 6, 8, 10] ∧
     EV3Event.sshKillStale ∈ (connectModel envAllFail true true evSt0).2.2 ∧
     EV3Event.sshStartDetached ∈ (connectModel envAllFail true true evSt0).2.2) :=
  ⟨fun n t h => by simp [envAllFail] at h,
   connect_bootstrap_retry_backoff envAllFail evSt0
     (fun n t h => by simp [envAllFail] at h)⟩

/-- Claim C6, counterexample: USB connects but no `READY` arrives, WiFi's
connect fails, Bluetooth is unavailable — `_try_connect` returns `False`,
the USB transport itself was disconnected, but the interface's `_connected`
flag remains `True` (and `_transport` still references the closed USB
transport): the "connected flag is false" part of the claim fails. -/
theorem tryConnect_failed_leaves_flag :
    (tryConnect env6 evSt0).1 = false ∧
    (tryConnect env6 evSt0).2.1.connected = true ∧
    (tryConnect env6 evSt0).2.1.transport = some TransportId.usb := by
  refine ⟨?_, ?_, ?_⟩ <;> rfl

/-- Claim C6 (amended): every failed connect attempt tears down its
transport — when `_try_connect` returns `False`, every transport that was
connected during the loop has been disconnected again, so no transport is
left open (the interface's `_connected` flag and `_transport` reference,
however, are not reset). -/
theorem tryConnect_failed_tears_down (env : TransportId → TOutcome)
    (st : EV3State) (hfail : (tryConnect env st).1 = false) :
    ∀ t, EV3Event.transportConnected t ∈ (tryConnect env st).2.2 →
         EV3Event.disconnected t ∈ (tryConnect env st).2.2 :=
  tryList_false_disc env priorityOrder st hfail

/-- Witness for the amended C6: in the `env6` scenario the failed attempt
has disconnected the USB transport it had opened. -/
theorem tryConnect_failed_tears_down_witness :
    ((tryConnect env6 evSt0).1 = false ∧
      EV3Event.transportConnected TransportId.usb ∈ (tryConnect env6 evSt0).2.2) ∧
    EV3Event.disconnected TransportId.usb ∈ (tryConnect env6 evSt0).2.2 :=
  ⟨⟨by decide, by decide⟩,
   tryConnect_failed_tears_down env6 evSt0 (by decide) TransportId.usb (by decide)⟩

/-! ## Claim C4 -/

/-- Claim C4, counterexample: sending a correlated request while one is
already pending (response id 10, future 0) raises nothing — the
registration succeeds (`Except.ok`) and overwrites the pending-response
cell with the new request's response id 20 and a fresh future, after which
a response to the first request (id 10) no longer resolves anything.  The
source has no `ProtocolError`. -/
theorem sendRequest_while_pending_succeeds :
    sendRequestRegister spikePending0 20 =
      Except.ok ({ connected := true, slot := 0, pending := some (20, 1),
                   futureCounter := 2 }, 1) ∧
    onData { connected := true, slot := 0, pending := some (20, 1),
             futureCounter := 2 } 10 = none :=
  ⟨rfl, rfl⟩

/-- Claim C4 (amended): sending a correlated request while another is
pending raises no error — `_send_request` silently overwrites the
pending-response cell with the new request's response type and a fresh
future, so a response to the clobbered request resolves nothing. -/
theorem sendRequest_pending_clobbered (st : SpikeSession)
    (respId oldId oldFut : Nat) (hp : st.pending = some (oldId, oldFut))
    (hne : oldId ≠ respId) :
    sendRequestRegister st respId =
      Except.ok ({ st with
                   pending := some (respId, st.futureCounter),
                   futureCounter := st.futureCounter + 1 }, st.futureCounter) ∧
    onData (registerPending st respId).1 oldId = none := by
  refine ⟨rfl, ?_⟩
  simp [onData, registerPending, hne]

/-- Witness for the amended C4 at the pending session. -/
theorem sendRequest_pending_clobbered_witness :
    (spikePending0.pending = some (10, 0) ∧ (10 : Nat) ≠ 20) ∧
    (sendRequestRegister spikePending0 20 =
       Except.ok ({ spikePending0 with
                    pending := some (20, spikePending0.futureCounter),
                    futureCounter := spikePending0.futureCounter + 1 },
                  spikePending0.futureCounter) ∧
     onData (registerPending spikePending0 20).1 10 = none) :=
  ⟨⟨rfl, by decide⟩,
   sendRequest_pending_clobbered spikePending0 20 10 0 rfl (by decide)⟩

/-! ## Claim C7 -/

/-- Claim C7: `connect_all` runs every registered device's connection
(EV3 tasks created first: the task order starts with exactly the EV3
devices' names, and covers each device once), raises no exception itself,
and returns true exactly when every device connected; a failing device's
`DeviceState` is left with `connected = false` while successful devices
keep `connected = true`. -/
theorem connectAll_partial (env : String → ConnOutcome)
    (devices : List DeviceRec) (hfresh : ∀ d ∈ devices, d.connected = false) :
    (∃ ok states, connectAll env devices = Except.ok (ok, states)) ∧
    (∀ ok states, connectAll env devices = Except.ok (ok, states) →
       ((ok = true) ↔ ∀ d ∈ devices, env d.name = ConnOutcome.success) ∧
       (∀ (k : Nat) (d : DeviceRec), devices[k]? = some d →
          states[k]? =
            some { d with connected := decide (env d.name = ConnOutcome.success) })) ∧
    ((taskOrder devices).Perm (devices.map (·.name))) ∧
    ((taskOrder devices).take
        ((devices.filter fun x => x.platform = Platform.ev3).length) =
      (devices.filter fun x => x.platform = Platform.ev3).map (·.name)) := by
  refine ⟨⟨_, _, rfl⟩, ?_, ?_, ?_⟩
  · intro ok states h
    simp only [connectAll, Except.ok.injEq, Prod.mk.injEq] at h
    obtain ⟨hok, hst⟩ := h
    constructor
    · rw [← hok, decide_eq_true_eq, List.countP_eq_length]
      constructor
      · intro hall d hd
        have hc := hall ((connectDevice env d).1)
          (List.mem_map_of_mem (fun d => (connectDevice env d).1) hd)
        cases hec : env d.name with
        | success => rfl
        | failure =>
          simp [connectDevice, hec, hfresh d hd] at hc
        | raises =>
          simp [connectDevice, hec, hfresh d hd] at hc
      · intro hall s hs
        obtain ⟨d, hd, rfl⟩ := List.mem_map.mp hs
        simp [connectDevice, hall d hd]
    · intro k d hk
      have hd_mem : d ∈ devices := List.getElem?_mem hk
      have hcn : d.connected = false := hfresh d hd_mem
      rw [← hst, List.getElem?_map, hk]
      obtain ⟨nm, pf, cn, lt⟩ := d
      change cn = false at hcn
      subst hcn
      cases hec : env nm with
      | success => simp [connectDevice, hec]
      | failure => simp [connectDevice, hec]
      | raises => simp [connectDevice, hec]
  · have hsplit := List.filter_append_perm
      (fun d => decide (d.platform = Platform.ev3)) devices
    have heq : taskOrder devices =
        ((devices.filter fun d => decide (d.platform = Platform.ev3)) ++
          (devices.filter fun d => !decide (d.platform = Platform.ev3))).map
            (·.name) := by
      simp [taskOrder, List.map_append]
    rw [heq]
    exact hsplit.map (·.name)
  · have hlen :
        ((devices.filter fun x => x.platform = Platform.ev3).map
            (fun d => d.name)).length =
          (devices.filter fun x => x.platform = Platform.ev3).length :=
      List.length_map _ _
    rw [taskOrder, ← hlen, List.take_left]

/-- Witness for C7: two fresh devices, the EV3 one always failing — the
call returns `ok = false`, the Spike's state keeps `connected = true`, the
EV3's state keeps `connected = false`. -/
theorem connectAll_partial_witness :
    (∀ d ∈ devices7, d.connected = false) ∧
    ((∃ ok states, connectAll env7 devices7 = Except.ok (ok, states)) ∧
     (∀ ok states, connectAll env7 devices7 = Except.ok (ok, states) →
        ((ok = true) ↔ ∀ d ∈ devices7, env7 d.name = ConnOutcome.success) ∧
        (∀ (k : Nat) (d : DeviceRec), devices7[k]? = some d →
           states[k]? = some { d with
                                connected :=
                                  decide (env7 d.name = ConnOutcome.success) })) ∧
     ((taskOrder devices7).Perm (devices7.map (·.name))) ∧
     ((taskOrder devices7).take
         ((devices7.filter fun x => x.platform = Platform.ev3).length) =
       (devices7.filter fun x => x.platform = Platform.ev3).map (·.name))) :=
  ⟨by decide, connectAll_partial env7 devices7 (by decide)⟩

/-! ## Claim C8 -/

/-- After updating a device's recorded latency, looking it up again finds
the same record with the new latency. -/
theorem find?_updateDevice_latency (reg : List DeviceRec) (name : String)
    (lat : Nat) :
    ∀ d, reg.find? (fun e => e.name = name) = some d →
      (updateDevice reg name fun e => { e with latencyMs := lat }).find?
          (fun e => e.name = name) = some { d with latencyMs := lat } := by
  induction reg with
  | nil => intro d h; simp at h
  | cons r rest ih =>
    intro d h
    by_cases hr : r.name = name
    · simp only [List.find?_cons, hr, decide_True] at h
      obtain rfl : r = d := by simpa using h
      simp [updateDevice, List.find?_cons, hr]
    · have hdec : (decide (r.name = name)) = false := by simp [hr]
      simp only [List.find?_cons, hdec] at h
      have hrec := ih d h
      simp only [updateDevice, List.map_cons] at hrec ⊢
      simp [List.find?_cons, hr, hdec, hrec]

/-- Claim C8: for a registered and connected device, a successful
underlying send makes `Conductor.send` return `(True, latency)` and record
that latency on the device's `DeviceState`; an exception from the
underlying send is caught and reported as `(False, 0)` with the registry
unchanged, not propagated. -/
theorem conductorSend_success_and_catch (reg : List DeviceRec) (name : String)
    (d : DeviceRec) (lat : Nat)
    (hfind : reg.find? (fun e => e.name = name) = some d)
    (hconn : d.connected = true) :
    (conductorSend (SendOutcome.ok lat) reg name =
      ((true, lat), updateDevice reg name fun e => { e with latencyMs := lat })) ∧
    ((updateDevice reg name fun e => { e with latencyMs := lat }).find?
        (fun e => e.name = name) = some { d with latencyMs := lat }) ∧
    (conductorSend SendOutcome.raises reg name = ((false, 0), reg)) := by
  refine ⟨?_, find?_updateDevice_latency reg name lat d hfind, ?_⟩ <;>
    simp [conductorSend, hfind, hconn, platformSend]

/-- Witness for C8 on a one-device registry with latency 42. -/
theorem conductorSend_success_and_catch_witness :
    (reg8.find? (fun e => e.name = "spike") =
        some { name := "spike", platform := .spike, connected := true,
               latencyMs := 7 } ∧
      ({ name := "spike", platform := .spike, connected := true,
         latencyMs := 7 } : DeviceRec).connected = true) ∧
    ((conductorSend (SendOutcome.ok 42) reg8 "spike" =
       ((true, 42), updateDevice reg8 "spike" fun e => { e with latencyMs := 42 })) ∧
     ((updateDevice reg8 "spike" fun e => { e with latencyMs := 42 }).find?
         (fun e => e.name = "spike") =
       some { name := "spike", platform := .spike, connected := true,
              latencyMs := 42 }) ∧
     (conductorSend SendOutcome.raises reg8 "spike" = ((false, 0), reg8))) :=
  ⟨⟨by decide, by decide⟩,
   conductorSend_success_and_catch reg8 "spike"
     { name := "spike", platform := .spike, connected := true, latencyMs := 7 }
     42 (by decide) (by decide)⟩

/-! ## Claim C9 -/

theorem interactiveLoop_enough :
    ∀ (remaining : Nat) (signals : List Nat) (completed : Nat),
      remaining ≤ signals.length →
      interactiveLoop signals remaining completed =
        (List.range' (completed + 1) remaining, []) := by
  intro remaining
  induction remaining with
  | zero => intro signals completed _; simp [interactiveLoop]
  | succ r ih =>
    intro signals completed h
    cases signals with
    | nil => simp at h
    | cons s rest =>
      simp only [interactiveLoop]
      rw [ih rest (completed + 1) (by simpa using h)]
      simp [List.range'_succ]

theorem interactiveLoop_short :
    ∀ (signals : List Nat) (remaining completed : Nat),
      signals.length < remaining →
      interactiveLoop signals remaining completed =
        (List.range' (completed + 1) signals.length, [5]) := by
  intro signals
  induction signals with
  | nil =>
    intro remaining completed h
    cases remaining with
    | zero => simp at h
    | succ r => simp [interactiveLoop]
  | cons s rest ih =>
    intro remaining completed h
    cases remaining with
    | zero => simp at h
    | succ r =>
      simp only [interactiveLoop]
      rw [ih r (completed + 1) (by simpa using h)]
      simp [List.range'_succ]

theorem signalBasedExecute_total :
    ∀ (n : Nat) (signals : List Nat),
      (signalBasedExecute signals n).1.length = n ∧
      ∀ x ∈ (signalBasedExecute signals n).2, x = 5 := by
  intro n
  induction n with
  | zero => intro signals; simp [signalBasedExecute]
  | succ m ih =>
    intro signals
    cases signals with
    | nil =>
      obtain ⟨ih1, ih2⟩ := ih []
      refine ⟨by simp [signalBasedExecute, ih1], ?_⟩
      intro x hx
      simp only [signalBasedExecute] at hx
      rcases List.mem_cons.mp hx with rfl | hx2
      · rfl
      · exact ih2 x hx2
    | cons s rest =>
      obtain ⟨ih1, ih2⟩ := ih rest
      exact ⟨by simp [signalBasedExecute, ih1], by
        intro x hx
        simp only [signalBasedExecute] at hx
        exact ih2 x hx⟩

/-- Claim C9: in signal-based execution over N actions, when a completion
signal arrives for every action the `on_action_done` callback is invoked
exactly N times with arguments 1..N in order; when only k < N signals ever
arrive, the callbacks are 1..k, the next wait times out after the 5-second
bound, and the call still returns; in `SignalBasedPattern.execute` a wait
timeout is non-fatal — all N steps still execute and every timed-out wait
used the 5-second bound. -/
theorem signal_execution_callbacks (actions : List SeqAction)
    (signals : List Nat) :
    (actions.length ≤ signals.length →
       runInteractive actions.length signals =
         (List.range' 1 actions.length, [])) ∧
    (signals.length < actions.length →
       runInteractive actions.length signals =
         (List.range' 1 signals.length, [5])) ∧
    ((signalBasedExecute signals actions.length).1.length = actions.length) ∧
    (∀ x ∈ (signalBasedExecute signals actions.length).2, x = 5) := by
  refine ⟨?_, ?_, (signalBasedExecute_total actions.length signals).1,
    (signalBasedExecute_total actions.length signals).2⟩
  · intro h
    exact interactiveLoop_enough actions.length signals 0 h
  · intro h
    exact interactiveLoop_short signals actions.length 0 h

/-- Witness for C9 with 3 actions: all 3 signals give callbacks 1,2,3;
only 2 signals give callbacks 1,2 plus one 5-second timeout; the
signal-based pattern still executes all 3 steps. -/
theorem signal_execution_callbacks_witness :
    (actions9.length ≤ List.length ([0, 1, 2] : List Nat) ∧
      List.length ([0, 1] : List Nat) < actions9.length) ∧
    (runInteractive actions9.length [0, 1, 2] = ([1, 2, 3], []) ∧
     runInteractive actions9.length [0, 1] = ([1, 2], [5]) ∧
     (signalBasedExecute [0, 1] actions9.length).1.length = actions9.length) := by
  refine ⟨⟨by decide, by decide⟩, ?_, ?_, ?_⟩
  · rw [(signal_execution_callbacks actions9 [0, 1, 2]).1 (by decide)]; rfl
  · rw [(signal_execution_callbacks actions9 [0, 1]).2.1 (by decide)]; rfl
  · exact (signal_execution_callbacks actions9 [0, 1]).2.2.1

/-! ## Claim C10 -/

/-- Claim C10: for every program payload, when the `SpikeInterface` is not
connected (connect never succeeded, or `disconnect` already ran),
`upload_and_run` returns `False` immediately and sends no BLE message, so
no hub slot state is modified. -/
theorem uploadAndRun_not_connected (st : SpikeSession) (cs : Nat)
    (ok : SpikeMsg → Bool) (program : List Nat) (h : st.connected = false) :
    uploadAndRun st cs ok program = (false, []) ∧
    uploadAndRun (disconnectSession st) cs ok program = (false, []) := by
  constructor
  · simp [uploadAndRun, h]
  · simp [uploadAndRun, disconnectSession]

/-- Witness for C10 on a never-connected session. -/
theorem uploadAndRun_not_connected_witness :
    (spikeDisconn.connected = false) ∧
    (uploadAndRun spikeDisconn 100 okAll [1, 2, 3] = (false, []) ∧
     uploadAndRun (disconnectSession spikeDisconn) 100 okAll [1, 2, 3] =
       (false, [])) :=
  ⟨rfl, uploadAndRun_not_connected spikeDisconn 100 okAll [1, 2, 3] rfl⟩

end EV3SP
